import Mathlib

/-!
Shallow embedding of the notification-service core (TypeScript sources under
src/): the idempotent create path of NotificationService, the models
(Notification, Template, DeliveryLog), the delivery channels, and the worker
loop processNotification. Machine arithmetic is modelled with Nat and explicit
mod, JS objects with association lists, thrown errors with Except. Statuses,
SQL behaviour and the Redis cache are modelled at the level the service
observes them (an assoc-list store with a uniqueness check on
idempotency_key, a key to id cache, an id queue).
-/

namespace NotifService

/-! ### JSON values (the shape of the data payload the service handles) -/

/-- JSON fragment used for notification data payloads: `src/types` stores
data as `Record<string, any>`; the claims only need scalar values. -/
inductive Json where
  | str (s : String)
  | num (n : Int)
  | bool (b : Bool)
  | null
deriving DecidableEq, Repr

/-- A JS object literal: ordered key/value pairs (JS objects keep string-key
insertion order, which JSON.stringify follows). -/
abbrev JsonObj := List (String × Json)

/-- Hex digit, lowercase, as produced by Node's digest('hex'). -/
def hexDigit (n : Nat) : Char :=
  if n < 10 then Char.ofNat (48 + n) else Char.ofNat (87 + n)

/-- One character of a JSON.stringify string literal body, with the JS
escapes for quote, backslash and control characters. -/
def jsonEscapeChar (c : Char) : List Char :=
  if c == '"' then ['\\', '"']
  else if c == '\\' then ['\\', '\\']
  else if c == '\n' then ['\\', 'n']
  else if c == '\r' then ['\\', 'r']
  else if c == '\t' then ['\\', 't']
  else if c.toNat == 8 then ['\\', 'b']
  else if c.toNat == 12 then ['\\', 'f']
  else if c.toNat < 32 then ['\\', 'u', '0', '0', hexDigit (c.toNat / 16), hexDigit (c.toNat % 16)]
  else [c]

/-- A JSON string literal, quotes included. -/
def jsonStrLit (s : String) : String :=
  "\"" ++ String.mk (s.data.foldr (fun c acc => jsonEscapeChar c ++ acc) []) ++ "\""

/-- JSON.stringify of one scalar value. -/
def Json.stringify1 : Json → String
  | .str s => jsonStrLit s
  | .num n => toString n
  | .bool b => cond b "true" "false"
  | .null => "null"

/-- JSON.stringify of an object: keys in insertion order, exactly the string
hashed by generateIdempotencyKey. -/
def jsonStringify (o : JsonObj) : String :=
  "\x7b" ++ String.intercalate "," (o.map fun p => jsonStrLit p.1 ++ ":" ++ Json.stringify1 p.2) ++ "\x7d"

/-- `data[key]` on a JS object: first binding for the key, none when absent. -/
def jsLookup (data : JsonObj) (key : String) : Option Json :=
  (data.find? fun p => p.1 == key).map (·.2)

/-- `v?.toString()` on a JSON scalar: none for null (optional chaining yields
undefined), otherwise the JS string form. -/
def jsToString : Json → Option String
  | .null => none
  | .str s => some s
  | .num n => some (toString n)
  | .bool b => some (cond b "true" "false")

/-! ### SHA-256 (crypto.createHash('sha256') … digest('hex'))

32-bit words are Nat values kept below 2^32 with explicit mod. -/

/-- 2^32, the word modulus. -/
def M32 : Nat := 4294967296

/-- Right rotation of a 32-bit word. -/
def rotr32 (n x : Nat) : Nat := ((x >>> n) ||| (x <<< (32 - n))) % M32

/-- 32-bit bitwise complement. -/
def not32 (x : Nat) : Nat := x ^^^ (M32 - 1)

/-- SHA-256 Ch function. -/
def shaCh (x y z : Nat) : Nat := (x &&& y) ^^^ (not32 x &&& z)

/-- SHA-256 Maj function. -/
def shaMaj (x y z : Nat) : Nat := ((x &&& y) ^^^ (x &&& z)) ^^^ (y &&& z)

/-- SHA-256 Σ0. -/
def bigSigma0 (x : Nat) : Nat := rotr32 2 x ^^^ rotr32 13 x ^^^ rotr32 22 x

/-- SHA-256 Σ1. -/
def bigSigma1 (x : Nat) : Nat := rotr32 6 x ^^^ rotr32 11 x ^^^ rotr32 25 x

/-- SHA-256 σ0. -/
def smallSigma0 (x : Nat) : Nat := rotr32 7 x ^^^ rotr32 18 x ^^^ (x >>> 3)

/-- SHA-256 σ1. -/
def smallSigma1 (x : Nat) : Nat := rotr32 17 x ^^^ rotr32 19 x ^^^ (x >>> 10)

/-- The 64 SHA-256 round constants of FIPS 180-4, in decimal. -/
def shaK : List Nat :=
  [1116352408, 1899447441, 3049323471, 3921009573, 961987163, 1508970993,
   2453635748, 2870763221, 3624381080, 310598401, 607225278, 1426881987,
   1925078388, 2162078206, 2614888103, 3248222580, 3835390401, 4022224774,
   264347078, 604807628, 770255983, 1249150122, 1555081692, 1996064986,
   2554220882, 2821834349, 2952996808, 3210313671, 3336571891, 3584528711,
   113926993, 338241895, 666307205, 773529912, 1294757372, 1396182291,
   1695183700, 1986661051, 2177026350, 2456956037, 2730485921, 2820302411,
   3259730800, 3345764771, 3516065817, 3600352804, 4094571909, 275423344,
   430227734, 506948616, 659060556, 883997877, 958139571, 1322822218,
   1537002063, 1747873779, 1955562222, 2024104815, 2227730452, 2361852424,
   2428436474, 2756734187, 3204031479, 3329325298]

/-- The initial SHA-256 hash state, in decimal. -/
def shaH0 : List Nat :=
  [1779033703, 3144134277, 1013904242, 2773480762, 1359893119, 2600822924,
   528734635, 1541459225]

/-- UTF-8 encoding of one character as bytes. -/
def utf8EncodeChar (c : Char) : List Nat :=
  let n := c.toNat
  if n < 0x80 then [n]
  else if n < 0x800 then [0xC0 ||| (n >>> 6), 0x80 ||| (n &&& 0x3F)]
  else if n < 0x10000 then
    [0xE0 ||| (n >>> 12), 0x80 ||| ((n >>> 6) &&& 0x3F), 0x80 ||| (n &&& 0x3F)]
  else
    [0xF0 ||| (n >>> 18), 0x80 ||| ((n >>> 12) &&& 0x3F), 0x80 ||| ((n >>> 6) &&& 0x3F),
     0x80 ||| (n &&& 0x3F)]

/-- UTF-8 bytes of a string (hash.update uses utf8 by default). -/
def utf8Bytes (s : String) : List Nat :=
  s.data.foldr (fun c acc => utf8EncodeChar c ++ acc) []

/-- SHA-256 padding: 0x80, zeros to 56 mod 64, then the 64-bit big-endian
bit length. -/
def shaPad (msg : List Nat) : List Nat :=
  let len := msg.length
  let bitLen := 8 * len
  let padZeros := (119 - len % 64) % 64
  msg ++ [0x80] ++ List.replicate padZeros 0 ++
    [(bitLen >>> 56) % 256, (bitLen >>> 48) % 256, (bitLen >>> 40) % 256, (bitLen >>> 32) % 256,
     (bitLen >>> 24) % 256, (bitLen >>> 16) % 256, (bitLen >>> 8) % 256, bitLen % 256]

/-- Split into 64-byte chunks; the fuel (≥ number of chunks) keeps the
recursion structural. -/
def chunks64 : Nat → List Nat → List (List Nat)
  | 0, _ => []
  | _, [] => []
  | fuel + 1, l => l.take 64 :: chunks64 fuel (l.drop 64)

/-- Big-endian 32-bit words of a chunk. -/
def toWords : List Nat → List Nat
  | b0 :: b1 :: b2 :: b3 :: rest =>
    ((((b0 <<< 8) ||| b1) <<< 8 ||| b2) <<< 8 ||| b3) :: toWords rest
  | _ => []

/-- Extend the 16 message words to the 64-entry schedule. -/
def shaSchedule (w16 : List Nat) : List Nat :=
  (List.range 48).foldl
    (fun w _ =>
      let t := w.length
      w ++ [(smallSigma1 (w.getD (t - 2) 0) + w.getD (t - 7) 0 +
             smallSigma0 (w.getD (t - 15) 0) + w.getD (t - 16) 0) % M32])
    w16

/-- One SHA-256 compression round on the 8-word working state. -/
def compressStep (st : List Nat) (kw : Nat × Nat) : List Nat :=
  match st with
  | [a, b, c, d, e, f, g, h] =>
    let t1 := (h + bigSigma1 e + shaCh e f g + kw.1 + kw.2) % M32
    let t2 := (bigSigma0 a + shaMaj a b c) % M32
    [(t1 + t2) % M32, a, b, c, (d + t1) % M32, e, f, g]
  | other => other

/-- Process one 64-byte chunk. -/
def compressChunk (h : List Nat) (chunk : List Nat) : List Nat :=
  let ws := shaSchedule (toWords chunk)
  let st := (shaK.zip ws).foldl compressStep h
  (h.zip st).map fun p => (p.1 + p.2) % M32

/-- SHA-256 of a byte list, as eight 32-bit words. -/
def sha256Words (msg : List Nat) : List Nat :=
  let padded := shaPad msg
  (chunks64 padded.length padded).foldl compressChunk shaH0

/-- Eight lowercase hex digits of one 32-bit word. -/
def word8Hex (w : Nat) : List Char :=
  [hexDigit ((w >>> 28) % 16), hexDigit ((w >>> 24) % 16), hexDigit ((w >>> 20) % 16),
   hexDigit ((w >>> 16) % 16), hexDigit ((w >>> 12) % 16), hexDigit ((w >>> 8) % 16),
   hexDigit ((w >>> 4) % 16), hexDigit (w % 16)]

/-- createHash('sha256').update(s).digest('hex'). -/
def sha256hex (s : String) : String :=
  String.mk ((sha256Words (utf8Bytes s)).foldr (fun w acc => word8Hex w ++ acc) [])

/-! ### Idempotency key (src/utils/idempotency.ts) -/

/-- The string hashed by generateIdempotencyKey:
userId ++ ":" ++ template ++ ":" ++ JSON.stringify(data). -/
def idempotencyContent (userId template : String) (data : JsonObj) : String :=
  userId ++ ":" ++ template ++ ":" ++ jsonStringify data

/-- generateIdempotencyKey: sha256 hex of the colon-joined content string. -/
def generateIdempotencyKey (userId template : String) (data : JsonObj) : String :=
  sha256hex (idempotencyContent userId template data)

end NotifService

namespace NotifService

/-! ### Template rendering (renderTemplate in src/channels/NotificationChannels.ts)

template.replace(/\x7b\x7b(\w+)\x7d\x7d/g, (match, key) => data[key]?.toString() || match)
modelled as a left-to-right scan: at each position the regex either matches a
full placeholder (two braces, one or more word characters, two braces) and the
replacement callback runs, or the scan advances one character. -/

/-- \w of the regex: ASCII letter, digit or underscore. -/
def isWordChar (c : Char) : Bool :=
  (('a' ≤ c) && (c ≤ 'z')) || (('A' ≤ c) && (c ≤ 'Z')) || (('0' ≤ c) && (c ≤ '9')) || (c == '_')

/-- Longest prefix of word characters and the rest (the greedy \w+ match;
word characters never overlap the closing braces, so greediness is exact). -/
def takeWord : List Char → List Char × List Char
  | [] => ([], [])
  | c :: cs =>
    if isWordChar c then
      let (w, r) := takeWord cs
      (c :: w, r)
    else ([], c :: cs)

/-- The literal matched text for a word w. -/
def placeholderLit (w : List Char) : List Char :=
  '\x7b' :: '\x7b' :: (w ++ ['\x7d', '\x7d'])

/-- The replacement callback: data[key]?.toString() || match. A missing key,
a null value, or an empty string form all fall back to the matched text. -/
def replForKey (data : JsonObj) (w : List Char) : List Char :=
  match (jsLookup data (String.mk w)).bind jsToString with
  | none => placeholderLit w
  | some s => if s == "" then placeholderLit w else s.data

/-- The scan. Fuel bounds the number of steps (each step consumes at least one
character, so list length + 1 suffices) and keeps the recursion structural. -/
def renderGo (data : JsonObj) : Nat → List Char → List Char
  | 0, cs => cs
  | _ + 1, [] => []
  | fuel + 1, c :: cs =>
    if c == '\x7b' then
      match cs with
      | c2 :: cs2 =>
        if c2 == '\x7b' then
          match takeWord cs2 with
          | ([], _) => c :: renderGo data fuel cs
          | (w, r) =>
            match r with
            | '\x7d' :: '\x7d' :: rest => replForKey data w ++ renderGo data fuel rest
            | _ => c :: renderGo data fuel cs
        else c :: renderGo data fuel cs
      | [] => [c]
    else c :: renderGo data fuel cs

/-- renderTemplate: substitute each matched placeholder through the callback. -/
def renderTemplate (template : String) (data : JsonObj) : String :=
  String.mk (renderGo data (template.data.length + 1) template.data)

/-! ### Data model (src/types, scripts/init.sql) -/

/-- The delivery channels (enum NotificationChannel). -/
inductive Channel where
  | email
  | sms
  | push
deriving DecidableEq, Repr

/-- enum NotificationStatus; the check constraint of the notifications table
admits exactly these values. -/
inductive NotificationStatus where
  | pending
  | queued
  | processing
  | sent
  | failed
  | retrying
deriving DecidableEq, Repr

/-- One row of the notifications table. Ids are Nat (the UUIDs are opaque);
created_at/updated_at carry no claim and are omitted. -/
structure Notification where
  id : Nat
  user_id : String
  channel : Channel
  template_id : String
  data : JsonObj
  status : NotificationStatus
  idempotency_key : String
  error_message : Option String
  retry_count : Nat
deriving DecidableEq, Repr

/-- One row of the templates table. The required-variable list is the
source's field named variables (a keyword in Lean, hence vars here). -/
structure Template where
  id : String
  name : String
  channel : Channel
  subject : Option String
  body : String
  vars : List String
deriving DecidableEq, Repr

/-- The raw provider response captured into results and logs: either the
provider's response object or a caught error object. -/
inductive ProviderResponse where
  | raw (s : String)
  | caught (message : String)
deriving DecidableEq, Repr

/-- One row of the delivery_logs table; created_at is an abstract timestamp. -/
structure DeliveryLog where
  notification_id : Nat
  attempt : Nat
  status : NotificationStatus
  error_message : Option String
  provider_response : Option ProviderResponse
  created_at : Nat
deriving DecidableEq, Repr

/-- The request body of POST /notifications (CreateNotificationDTO). -/
structure CreateNotificationDTO where
  user_id : String
  channel : Channel
  template : String
  data : JsonObj
deriving DecidableEq, Repr

/-- Thrown errors: the service's BadRequestError/NotFoundError, the store's
unique-constraint rejection, and generic JS Error values (the worker's
throw new Error and runtime TypeErrors). -/
inductive Err where
  | badRequest (msg : String)
  | notFound (msg : String)
  | uniqueViolation
  | jsError (msg : String)
deriving DecidableEq, Repr

/-- error.message of a thrown value. -/
def Err.message : Err → String
  | .badRequest m => m
  | .notFound m => m
  | .uniqueViolation => "duplicate key value violates unique constraint"
  | .jsError m => m

/-- The state the service observes: the Redis idempotency cache (prefixed key
to notification id, newest binding first, as SETEX overwrites), the
notifications table, the templates table, the queue's job payloads
(notification ids only), the delivery_logs table, the next generated id, and
the ambient CURRENT_TIMESTAMP. -/
structure Sys where
  cache : List (String × Nat)
  store : List Notification
  templates : List Template
  queue : List Nat
  logs : List DeliveryLog
  nextId : Nat
  clock : Nat
deriving DecidableEq, Repr

end NotifService

namespace NotifService

/-! ### Idempotency cache (src/utils/idempotency.ts)

Redis modelled as the association list Sys.cache, newest binding first; GET
takes the first binding for a key and SETEX prepends (shadowing any older
binding, as an overwrite does). -/

/-- checkIdempotency: GET idempotency:key, the cached notification id. -/
def checkIdempotency (cache : List (String × Nat)) (key : String) : Option Nat :=
  (cache.find? fun p => p.1 == "idempotency:" ++ key).map (·.2)

/-- storeIdempotencyKey: SETEX idempotency:key id (the TTL is time behaviour
the claims do not quantify over and is not modelled). -/
def storeIdempotencyKey (cache : List (String × Nat)) (key : String) (notificationId : Nat) :
    List (String × Nat) :=
  ("idempotency:" ++ key, notificationId) :: cache

/-! ### NotificationModel (src/models/Notification.ts) -/

namespace NotificationModel

/-- findById: SELECT by id, NotFoundError when absent. -/
def findById (store : List Notification) (id : Nat) : Except Err Notification :=
  match store.find? fun n => n.id == id with
  | some n => .ok n
  | none => .error (.notFound ("Notification with ID " ++ toString id ++ " not found"))

/-- findByIdempotencyKey: SELECT by key, null (none) when absent. -/
def findByIdempotencyKey (store : List Notification) (key : String) : Option Notification :=
  store.find? fun n => n.idempotency_key == key

/-- create: INSERT with status pending and retry_count 0 (column default); the
unique constraint on idempotency_key rejects the insert when a row with the
same key already exists. -/
def create (st : Sys) (dto : CreateNotificationDTO) (idempotencyKey : String) :
    Except Err Notification × Sys :=
  if st.store.any fun n => n.idempotency_key == idempotencyKey then
    (.error .uniqueViolation, st)
  else
    let n : Notification :=
      { id := st.nextId, user_id := dto.user_id, channel := dto.channel,
        template_id := dto.template, data := dto.data, status := .pending,
        idempotency_key := idempotencyKey, error_message := none, retry_count := 0 }
    (.ok n, { st with store := st.store ++ [n], nextId := st.nextId + 1 })

/-- updateStatus: UPDATE SET status, error_message (null when the argument is
omitted), updated_at; NotFoundError when no row matches. Returns the updated
row and the updated table. -/
def updateStatus (store : List Notification) (id : Nat) (status : NotificationStatus)
    (errorMessage : Option String) : Except Err (Notification × List Notification) :=
  match store.find? fun n => n.id == id with
  | none => .error (.notFound ("Notification with ID " ++ toString id ++ " not found"))
  | some n =>
    let n' := { n with status := status, error_message := errorMessage }
    .ok (n', store.map fun m => if m.id == id then n' else m)

/-- incrementRetryCount: UPDATE SET retry_count = retry_count + 1 (a single
atomic statement); NotFoundError when no row matches. -/
def incrementRetryCount (store : List Notification) (id : Nat) :
    Except Err (Notification × List Notification) :=
  match store.find? fun n => n.id == id with
  | none => .error (.notFound ("Notification with ID " ++ toString id ++ " not found"))
  | some n =>
    let n' := { n with retry_count := n.retry_count + 1 }
    .ok (n', store.map fun m => if m.id == id then n' else m)

end NotificationModel

/-! ### TemplateModel (src/models/Template.ts) -/

namespace TemplateModel

/-- findById: SELECT by primary key, NotFoundError when absent. -/
def findById (templates : List Template) (id : String) : Except Err Template :=
  match templates.find? fun t => t.id == id with
  | some t => .ok t
  | none => .error (.notFound ("Template with ID " ++ id ++ " not found"))

/-- validateVariables: the required variables whose data entry is undefined
(absent; an explicit null is present and passes), and whether none is
missing. -/
def validateVariables (template : Template) (data : JsonObj) : Bool × List String :=
  let missingVars := template.vars.filter fun v => (jsLookup data v).isNone
  (missingVars.isEmpty, missingVars)

end TemplateModel

/-! ### DeliveryLogModel (src/models/DeliveryLog.ts) -/

namespace DeliveryLogModel

/-- create: INSERT a delivery log row; the foreign key to notifications(id)
rejects the insert when the notification does not exist. -/
def create (st : Sys) (notificationId attempt : Nat) (status : NotificationStatus)
    (errorMessage : Option String) (providerResponse : Option ProviderResponse) :
    Except Err Sys :=
  if st.store.any fun n => n.id == notificationId then
    .ok { st with logs := st.logs ++
      [{ notification_id := notificationId, attempt := attempt, status := status,
         error_message := errorMessage, provider_response := providerResponse,
         created_at := st.clock }] }
  else
    .error (.jsError "insert into delivery_logs violates foreign key constraint")

/-- The rows of the window: all logs, or those with created_at >= since. -/
def windowLogs (since : Option Nat) (logs : List DeliveryLog) : List DeliveryLog :=
  match since with
  | none => logs
  | some s => logs.filter fun l => decide (s ≤ l.created_at)

/-- Math.round: round half toward positive infinity. -/
def jsRound (q : ℚ) : ℤ := ⌊q + 1 / 2⌋

/-- getSuccessRate: sent and total counts over the window; 0 when the window
is empty, otherwise the percentage rounded to two decimals
(Math.round((sent / total) * 100 * 100) / 100). -/
def getSuccessRate (since : Option Nat) (logs : List DeliveryLog) : ℚ :=
  let rows := windowLogs since logs
  let sent : ℚ := (rows.filter fun l => l.status == .sent).length
  let total : ℚ := rows.length
  if total = 0 then 0 else (jsRound (sent / total * 100 * 100) : ℚ) / 100

end DeliveryLogModel

/-! ### Channels (src/channels/NotificationChannels.ts)

The provider network call is the one genuinely external step; it is passed in
as a ProviderOutcome (the resolved or rejected promise of sgMail.send /
client.messages.create / the simulated FCM call). Everything around it is the
channel code. -/

/-- The provider call's outcome: a resolved response (message id plus raw
response) or a rejection/thrown error. -/
inductive ProviderOutcome where
  | ok (messageId : String) (raw : String)
  | err (message : String)
deriving DecidableEq, Repr

/-- The structured result every channel returns (interface ChannelSendResult);
absent optional fields are none. -/
structure ChannelSendResult where
  success : Bool
  messageId : Option String
  error : Option String
  providerResponse : Option ProviderResponse
deriving DecidableEq, Repr

/-- EmailChannel.send (the active SendGrid implementation). The message is
built before the try block: with a null subject, renderTemplate is called on
undefined and a TypeError escapes send. Inside the try, a rejected provider
call is caught and returned as a result without an error field. -/
def emailSend (outcome : ProviderOutcome) (recipient : String) (template : Template)
    (data : JsonObj) : Except Err ChannelSendResult :=
  match template.subject with
  | none =>
    .error (.jsError "TypeError: Cannot read properties of undefined (reading replace)")
  | some subj =>
    let _subject := renderTemplate subj data
    let _html := renderTemplate template.body data
    let _to := recipient
    match outcome with
    | .ok messageId raw =>
      .ok { success := true, messageId := some messageId, error := none,
            providerResponse := some (.raw raw) }
    | .err e =>
      .ok { success := false, messageId := some "", error := none,
            providerResponse := some (.caught e) }

/-- SMSChannel.send (the active Twilio implementation): the whole body is
inside the try, a rejected provider call is caught and returned as a result
without an error field. -/
def smsSend (outcome : ProviderOutcome) (recipient : String) (template : Template)
    (data : JsonObj) : Except Err ChannelSendResult :=
  let _body := renderTemplate template.body data
  let _to := recipient
  match outcome with
  | .ok messageId raw =>
    .ok { success := true, messageId := some messageId, error := none,
          providerResponse := some (.raw raw) }
  | .err e =>
    .ok { success := false, messageId := some "", error := none,
          providerResponse := some (.caught e) }

/-- PushChannel.validateRecipient: token length strictly between 20 and 300. -/
def validateDeviceToken (token : String) : Bool :=
  decide (20 < token.length) && decide (token.length < 300)

/-- PushChannel.send (simulated FCM): invalid tokens return a failure result
without a provider response; otherwise the body is rendered and the simulated
call either succeeds or throws inside the try, whose catch returns a failure
result carrying the error message. -/
def pushSend (outcome : ProviderOutcome) (recipient : String) (template : Template)
    (data : JsonObj) : Except Err ChannelSendResult :=
  if !validateDeviceToken recipient then
    .ok { success := false, messageId := none,
          error := some ("Invalid device token: " ++ recipient), providerResponse := none }
  else
    let _body := renderTemplate template.body data
    match outcome with
    | .ok messageId raw =>
      .ok { success := true, messageId := some messageId, error := none,
            providerResponse := some (.raw raw) }
    | .err e =>
      .ok { success := false, messageId := none, error := some e,
            providerResponse := some (.caught e) }

/-- ChannelFactory.getChannel followed by channel.send: the factory map holds
all three channel variants. -/
def channelSend (channel : Channel) (outcome : ProviderOutcome) (recipient : String)
    (template : Template) (data : JsonObj) : Except Err ChannelSendResult :=
  match channel with
  | .email => emailSend outcome recipient template data
  | .sms => smsSend outcome recipient template data
  | .push => pushSend outcome recipient template data

end NotifService

namespace NotifService

/-! ### NotificationService.createNotification (src/services/NotificationService.ts)

The nine steps of the source in order: derive the key, check the cache, check
the store (back-filling the cache on a hit), load and validate the template,
validate the variables, insert, enqueue (attempts 3, exponential backoff),
cache the key, return. The race parameter is the interleaving hook for the
concurrency hazard of the spec: a concurrent caller's row inserted after the
duplicate checks and before this caller's insert. The sequential run is
createNotification, with race = none. -/

/-- createNotification with an explicit interleaved concurrent insert. -/
def createNotificationWith (dto : CreateNotificationDTO) (st : Sys)
    (race : Option Notification) : Except Err Notification × Sys :=
  let idempotencyKey := generateIdempotencyKey dto.user_id dto.template dto.data
  match checkIdempotency st.cache idempotencyKey with
  | some cachedNotificationId =>
    (NotificationModel.findById st.store cachedNotificationId, st)
  | none =>
    match NotificationModel.findByIdempotencyKey st.store idempotencyKey with
    | some existingNotification =>
      (.ok existingNotification,
       { st with cache := storeIdempotencyKey st.cache idempotencyKey existingNotification.id })
    | none =>
      match TemplateModel.findById st.templates dto.template with
      | .error (.notFound _) =>
        (.error (.badRequest ("Template '" ++ dto.template ++ "' not found")), st)
      | .error e => (.error e, st)
      | .ok template =>
        if template.channel ≠ dto.channel then
          (.error (.badRequest ("Template '" ++ dto.template ++ "' is for the template channel, not the requested channel")), st)
        else
          let validation := TemplateModel.validateVariables template dto.data
          if !validation.1 then
            (.error (.badRequest ("Missing required template variables: " ++
              String.intercalate ", " validation.2)), st)
          else
            let st1 := match race with
              | some winner => { st with store := st.store ++ [winner] }
              | none => st
            match NotificationModel.create st1 dto idempotencyKey with
            | (.error e, st2) => (.error e, st2)
            | (.ok notification, st2) =>
              let st3 := { st2 with queue := st2.queue ++ [notification.id] }
              let st4 := { st3 with
                cache := storeIdempotencyKey st3.cache idempotencyKey notification.id }
              (.ok notification, st4)

/-- createNotification as the service runs it sequentially. -/
def createNotification (dto : CreateNotificationDTO) (st : Sys) :
    Except Err Notification × Sys :=
  createNotificationWith dto st none

/-- NotificationService.incrementRetryCount: loads the notification, builds an
update object carrying retry_count + 1 that is never passed on, and actually
runs NotificationModel.updateStatus(id, RETRYING). -/
def serviceIncrementRetryCount (st : Sys) (id : Nat) : Except Err Notification × Sys :=
  match NotificationModel.findById st.store id with
  | .error e => (.error e, st)
  | .ok notification =>
    let _updateData := (notification.retry_count + 1, NotificationStatus.retrying)
    match NotificationModel.updateStatus st.store id .retrying none with
    | .error e => (.error e, st)
    | .ok (n', store') => (.ok n', { st with store := store' })

/-! ### The worker (src/workers/NotificationWorker.ts) -/

/-- userId.padStart(7, '0'). -/
def padStart7 (s : String) : String :=
  if 7 ≤ s.length then s else String.mk (List.replicate (7 - s.length) '0' ++ s.data)

/-- getRecipientForUser's mock recipients. The push token's Math.random
suffix is an arbitrary fixed 30-character string here; no claim depends on
it. -/
def getRecipientForUser (userId : String) (channel : Channel) : String :=
  match channel with
  | .email => "user" ++ userId ++ "@example.com"
  | .sms => "+1555" ++ padStart7 userId
  | .push => "fcm_token_" ++ userId ++ "_" ++ "0123456789abcdefghij0123456789"

/-- The try block of processNotification for one job: load the notification
(SENT short-circuits with no log), mark PROCESSING, load the template, resolve
the channel and send, update the final status, insert the delivery log, and
either return the message id or throw Error(result.error) for the queue to
retry. Any thrown error carries the state as mutated so far. -/
def processTry (st : Sys) (notificationId attemptsMade attempts : Nat)
    (outcome : ProviderOutcome) : Except Err (Option String) × Sys :=
  match NotificationModel.findById st.store notificationId with
  | .error e => (.error e, st)
  | .ok notification =>
    if notification.status = .sent then (.ok none, st)
    else
      match NotificationModel.updateStatus st.store notificationId .processing none with
      | .error e => (.error e, st)
      | .ok (_, store1) =>
        let st1 := { st with store := store1 }
        match TemplateModel.findById st1.templates notification.template_id with
        | .error e => (.error e, st1)
        | .ok template =>
          let recipient := getRecipientForUser notification.user_id notification.channel
          match channelSend notification.channel outcome recipient template notification.data with
          | .error e => (.error e, st1)
          | .ok result =>
            let statusUpdate :=
              if result.success then
                NotificationModel.updateStatus st1.store notificationId .sent none
              else
                NotificationModel.updateStatus st1.store notificationId
                  (if attempts ≤ attemptsMade + 1 then .failed else .retrying) none
            match statusUpdate with
            | .error e => (.error e, st1)
            | .ok (_, store2) =>
              let st2 := { st1 with store := store2 }
              match DeliveryLogModel.create st2 notificationId (attemptsMade + 1)
                      (if result.success then .sent else .failed)
                      result.error result.providerResponse with
              | .error e => (.error e, st2)
              | .ok st3 =>
                if result.success then (.ok result.messageId, st3)
                else
                  (.error (.jsError (result.error.getD "Failed to send notification")), st3)

/-- processNotification: the try block above wrapped in the catch that makes a
best-effort second DeliveryLog insert (its own failure swallowed) and
rethrows. attemptsMade is the job's completed-attempt counter, attempts the
configured maximum. -/
def processNotification (st : Sys) (notificationId attemptsMade attempts : Nat)
    (outcome : ProviderOutcome) : Except Err (Option String) × Sys :=
  match processTry st notificationId attemptsMade attempts outcome with
  | (.ok r, st') => (.ok r, st')
  | (.error e, st') =>
    let st'' :=
      match DeliveryLogModel.create st' notificationId (attemptsMade + 1) .failed
              (some e.message) (some (.caught e.message)) with
      | .ok s => s
      | .error _ => st'
    (.error e, st'')

end NotifService

namespace NotifService

/-! ### Concrete fixtures (the sample templates of scripts/init.sql and the
request of the spec's Scenario A) used by the concrete theorems below. -/

/-- The data payload of Scenario A. -/
def exampleData : JsonObj :=
  [("name", .str "John"), ("app_name", .str "X"), ("link", .str "https://x")]

/-- The welcome_email template row of the migration. -/
def welcomeTemplate : Template :=
  { id := "welcome_email", name := "Welcome Email", channel := .email,
    subject := some "Welcome to \x7b\x7bapp_name\x7d\x7d!",
    body := "Hello \x7b\x7bname\x7d\x7d, get started: \x7b\x7blink\x7d\x7d",
    vars := ["name", "app_name", "link"] }

/-- The order_shipped template row of the migration (SMS, NULL subject). -/
def shippedTemplate : Template :=
  { id := "order_shipped", name := "Order Shipped", channel := .sms,
    subject := none,
    body := "Hi \x7b\x7bname\x7d\x7d, your order has shipped",
    vars := ["name", "order_id", "tracking_link"] }

/-- Scenario A's create request. -/
def createReq : CreateNotificationDTO :=
  { user_id := "u1", channel := .email, template := "welcome_email", data := exampleData }

/-- A system with the migration's templates and nothing else. -/
def baseSys : Sys :=
  { cache := [], store := [], templates := [welcomeTemplate, shippedTemplate],
    queue := [], logs := [], nextId := 5, clock := 0 }

/-- A notification already persisted for createReq's derived key (id 7,
status sent). -/
def sentNotification : Notification :=
  { id := 7, user_id := "u1", channel := .email, template_id := "welcome_email",
    data := exampleData, status := .sent,
    idempotency_key := generateIdempotencyKey "u1" "welcome_email" exampleData,
    error_message := none, retry_count := 0 }

/-- baseSys with sentNotification persisted (cache cold). -/
def dupSys : Sys := { baseSys with store := [sentNotification] }

/-- The concurrent winner's row for the lost idempotency race: same derived
key as createReq, inserted by the other caller. -/
def raceWinner : Notification :=
  { id := 9, user_id := "u1", channel := .email, template_id := "welcome_email",
    data := exampleData, status := .pending,
    idempotency_key := generateIdempotencyKey "u1" "welcome_email" exampleData,
    error_message := none, retry_count := 0 }

/-- A pending notification as the worker dequeues it (plain key literal; the
worker never derives keys). -/
def workerNotification : Notification :=
  { id := 1, user_id := "123", channel := .email, template_id := "welcome_email",
    data := exampleData, status := .pending, idempotency_key := "k1",
    error_message := none, retry_count := 0 }

/-- The worker's system state holding that notification. -/
def workerSys : Sys :=
  { cache := [], store := [workerNotification], templates := [welcomeTemplate, shippedTemplate],
    queue := [1], logs := [], nextId := 2, clock := 100 }

end NotifService

namespace NotifService

/-- A sent delivery-log row inside the query window. -/
def sentLog : DeliveryLog :=
  { notification_id := 1, attempt := 1, status := .sent, error_message := none,
    provider_response := none, created_at := 50 }

/-- A failed delivery-log row inside the query window. -/
def failedLog : DeliveryLog :=
  { notification_id := 2, attempt := 1, status := .failed,
    error_message := some "SMTP connection timeout", provider_response := none,
    created_at := 60 }

/-- The spec's success-rate window: 950 sent rows and 50 failed rows. -/
def successWindow : List DeliveryLog :=
  List.replicate 950 sentLog ++ List.replicate 50 failedLog

/-- A payload written with key a before key b. -/
def abPayload : JsonObj := [("a", .num 1), ("b", .num 2)]

/-- The same key/value map written with key b before key a. -/
def baPayload : JsonObj := [("b", .num 2), ("a", .num 1)]

/-! ### Template decomposition for the rendering claim

An arbitrary template, as the global regex decomposes it: literal text (free
of the opening brace, so it can neither contain nor complete a placeholder)
alternating with placeholders, and a trailing literal. Every template string
without stray opening braces — in particular every template of the
migration — is of this shape, with any number of placeholders. -/

/-- The template string assembled from alternating literal/placeholder
segments and a trailing literal. -/
def segString : List (List Char × List Char) → List Char → List Char
  | [], tail => tail
  | (lit, w) :: rest, tail => lit ++ (placeholderLit w ++ segString rest tail)

/-- Modelled from the amended claim C9's words: the output it prescribes —
literal text kept verbatim, and EACH placeholder independently substituted by
its value's string form when the value is present, non-null and non-empty,
and kept literally in place otherwise. -/
def renderedSegs (data : JsonObj) : List (List Char × List Char) → List Char → List Char
  | [], tail => tail
  | (lit, w) :: rest, tail =>
    lit ++ ((match (jsLookup data (String.mk w)).bind jsToString with
             | none => placeholderLit w
             | some s => if s == "" then placeholderLit w else s.data) ++
      renderedSegs data rest tail)

end NotifService

namespace NotifService

set_option maxRecDepth 40000

/-! ## Theorems -/

/-- Claim C2 (code_bug evidence): on a worker attempt where channel.send
returns success = false (here the SendGrid call rejects), the run inserts TWO
DeliveryLog rows for the single attempt, both numbered attempt 1: the main
path logs and then throws Error(result.error), and the catch handler logs the
same attempt again. The claim's exactly-one-log guarantee fails at the
provider-failure case. -/
theorem worker_provider_failure_double_log :
    ((processNotification workerSys 1 0 3 (.err "SMTP connection timeout")).2.logs.length = 2)
    ∧ ((processNotification workerSys 1 0 3
          (.err "SMTP connection timeout")).2.logs.map (·.attempt) = [1, 1]) :=
  ⟨rfl, rfl⟩

/-- Claim C3 (code_bug evidence): a fresh, valid, non-duplicate create request
persists the notification with status pending and enqueues its id (the queue
gains [5]), but the stored row and the returned notification are still
pending when createNotification returns: no update to queued ever happens. -/
theorem createNotification_leaves_status_pending :
    ((createNotification createReq baseSys).1.toOption.map (·.status) = some .pending)
    ∧ ((createNotification createReq baseSys).2.store.map (·.status) = [.pending])
    ∧ ((createNotification createReq baseSys).2.queue = [5]) :=
  ⟨rfl, rfl, rfl⟩

/-- Claim C4 (code_bug evidence): one worker attempt on a pending notification
with retry_count 0 leaves retry_count at 0 (the worker never calls any
increment), and NotificationService.incrementRetryCount itself also leaves
retry_count at 0 — it only sets the status to retrying, its retry_count + 1
update object is dead code. -/
theorem worker_attempt_retry_count_unchanged :
    (((processNotification workerSys 1 0 3
        (.err "SMTP connection timeout")).2.store.find? fun n => n.id == 1).map
          (·.retry_count) = some 0)
    ∧ (((serviceIncrementRetryCount workerSys 1).2.store.find? fun n => n.id == 1).map
          (·.retry_count) = some 0)
    ∧ (((serviceIncrementRetryCount workerSys 1).2.store.find? fun n => n.id == 1).map
          (·.status) = some .retrying) :=
  ⟨rfl, rfl, rfl⟩

/-- Claim C5 (code_bug evidence): when a concurrent caller's row with the same
derived idempotency key lands between the duplicate checks and this caller's
insert, the store's unique-constraint rejection propagates out of
createNotification unchanged — there is no catch, no re-query by key, and the
winner's notification is not returned. -/
theorem createNotification_race_propagates_unique_violation :
    ((createNotificationWith createReq baseSys (some raceWinner)).1 = .error .uniqueViolation)
    ∧ raceWinner.idempotency_key =
        generateIdempotencyKey createReq.user_id createReq.template createReq.data :=
  ⟨rfl, rfl⟩

/-- Claim C6 (code_bug evidence): the active EmailChannel.send returns its
provider-failure result with no error message at all (error = none, only
success = false and the raw response); with a template whose subject is NULL
(the migration's order_shipped row) it throws a TypeError instead of
returning a result; and the active SMSChannel.send also omits the error
message on failure. -/
theorem channel_send_failure_lacks_error_and_can_throw :
    (∃ res, emailSend (.err "connection timeout") "useru1@example.com" welcomeTemplate
        exampleData = .ok res ∧ res.success = false ∧ res.error = none ∧
        res.providerResponse = some (.caught "connection timeout"))
    ∧ (emailSend (.ok "mid1" "raw1") "useru1@example.com" shippedTemplate exampleData =
        .error (.jsError "TypeError: Cannot read properties of undefined (reading replace)"))
    ∧ (∃ res, smsSend (.err "carrier blocked") "+1555000123" shippedTemplate exampleData =
        .ok res ∧ res.success = false ∧ res.error = none) :=
  ⟨⟨_, rfl, rfl, rfl, rfl⟩, rfl, ⟨_, rfl, rfl, rfl⟩⟩

/-- Claim C10 counterexample: a request whose named template exists with a
mismatched channel (template welcome_email is email, the request asks sms) is
deduplicated before the channel check ever runs — the channel is not part of
the idempotency key — so createNotification returns the existing notification
(id 7, status sent) instead of throwing a BadRequestError. -/
theorem createNotification_duplicate_bypasses_channel_check :
    ((createNotification { createReq with channel := .sms } dupSys).1.toOption.map
        (fun n => (n.id, n.status)) = some (7, .sent))
    ∧ TemplateModel.findById dupSys.templates "welcome_email" = .ok welcomeTemplate
    ∧ welcomeTemplate.channel ≠ Channel.sms :=
  ⟨rfl, rfl, by decide⟩

end NotifService

namespace NotifService

/-- Claim C1: when the derived idempotency key equals that of a persisted
notification — reachable through the cache (a coherent cache entry) or, on a
cache miss, through the store — createNotification returns that
notification's id and status and leaves the notifications table and the
queue untouched. The uniqueness hypotheses are the store's unique constraint
on idempotency_key and the primary key on id. -/
theorem createNotification_dedup_returns_existing
    (dto : CreateNotificationDTO) (st : Sys) (n : Notification)
    (hn : n ∈ st.store)
    (hkey : n.idempotency_key = generateIdempotencyKey dto.user_id dto.template dto.data)
    (huniq : ∀ m ∈ st.store, m.idempotency_key = n.idempotency_key → m = n)
    (hid : ∀ m ∈ st.store, m.id = n.id → m = n)
    (hcache : ∀ i, checkIdempotency st.cache
        (generateIdempotencyKey dto.user_id dto.template dto.data) = some i →
        ∃ m ∈ st.store, m.id = i ∧
          m.idempotency_key = generateIdempotencyKey dto.user_id dto.template dto.data) :
    ∃ r, (createNotification dto st).1 = .ok r ∧ r.id = n.id ∧ r.status = n.status ∧
      (createNotification dto st).2.store = st.store ∧
      (createNotification dto st).2.queue = st.queue := by
  cases hcc : checkIdempotency st.cache
      (generateIdempotencyKey dto.user_id dto.template dto.data) with
  | some i =>
    obtain ⟨m, hm, hmi, hmk⟩ := hcache i hcc
    have hmn : m = n := huniq m hm (by rw [hmk, hkey])
    cases hg : st.store.find? (fun x => x.id == i) with
    | none =>
      exfalso
      have hnone := List.find?_eq_none.mp hg m hm
      exact hnone (by simp [hmi])
    | some r =>
      have hrmem : r ∈ st.store := List.mem_of_find?_eq_some hg
      have hrid : r.id = i := by simpa using List.find?_some hg
      have hrn : r = n := hid r hrmem (by rw [hrid, ← hmi, hmn])
      refine ⟨r, ?_, by rw [hrn], by rw [hrn], ?_, ?_⟩ <;>
        simp [createNotification, createNotificationWith, hcc,
          NotificationModel.findById, hg]
  | none =>
    cases hf : NotificationModel.findByIdempotencyKey st.store
        (generateIdempotencyKey dto.user_id dto.template dto.data) with
    | none =>
      exfalso
      have hnone := List.find?_eq_none.mp hf n hn
      exact hnone (by simp [hkey])
    | some m =>
      have hmmem : m ∈ st.store := List.mem_of_find?_eq_some hf
      have hmk : m.idempotency_key =
          generateIdempotencyKey dto.user_id dto.template dto.data := by
        simpa using List.find?_some hf
      have hmn : m = n := huniq m hmmem (by rw [hmk, hkey])
      refine ⟨m, ?_, by rw [hmn], by rw [hmn], ?_, ?_⟩ <;>
        simp [createNotification, createNotificationWith, hcc, hf]

/-- Witness for claim C1 at a concrete state: the store of dupSys holds the
notification with createReq's derived key (id 7, status sent), the cache is
cold, and the create call returns id 7 / status sent with store and queue
unchanged. -/
theorem createNotification_dedup_returns_existing_witness :
    ∃ r, (createNotification createReq dupSys).1 = .ok r ∧ r.id = 7 ∧
      r.status = .sent ∧ (createNotification createReq dupSys).2.store = dupSys.store ∧
      (createNotification createReq dupSys).2.queue = dupSys.queue := by
  obtain ⟨r, h1, h2, h3, h4, h5⟩ :=
    createNotification_dedup_returns_existing createReq dupSys sentNotification
      (by simp [dupSys, baseSys])
      rfl
      (by intro m hm _; simpa [dupSys, baseSys] using hm)
      (by intro m hm _; simpa [dupSys, baseSys] using hm)
      (by intro i h; simp [checkIdempotency, dupSys, baseSys] at h)
  exact ⟨r, h1, h2.trans rfl, h3.trans rfl, h4, h5⟩

/-- Claim C10 (amended): for a create request that is not deduplicated (cache
and store both miss its derived key), when the named template exists but its
channel differs from the requested channel, createNotification throws a
BadRequestError and leaves the whole state unchanged. -/
theorem createNotification_channel_mismatch_rejected
    (dto : CreateNotificationDTO) (st : Sys) (template : Template)
    (hcc : checkIdempotency st.cache
        (generateIdempotencyKey dto.user_id dto.template dto.data) = none)
    (hf : NotificationModel.findByIdempotencyKey st.store
        (generateIdempotencyKey dto.user_id dto.template dto.data) = none)
    (ht : TemplateModel.findById st.templates dto.template = .ok template)
    (hch : template.channel ≠ dto.channel) :
    (∃ msg, (createNotification dto st).1 = .error (.badRequest msg))
    ∧ (createNotification dto st).2 = st := by
  constructor
  · exact ⟨"Template '" ++ dto.template ++ "' is for the template channel, not the requested channel",
      by simp [createNotification, createNotificationWith, hcc, hf, ht, hch]⟩
  · simp [createNotification, createNotificationWith, hcc, hf, ht, hch]

/-- Witness for the amended claim C10: on baseSys (no persisted rows), the sms
request for the email template welcome_email is rejected with a
BadRequestError and the state is unchanged. -/
theorem createNotification_channel_mismatch_rejected_witness :
    (∃ msg, (createNotification { createReq with channel := .sms } baseSys).1 =
        .error (.badRequest msg))
    ∧ (createNotification { createReq with channel := .sms } baseSys).2 = baseSys :=
  createNotification_channel_mismatch_rejected
    { createReq with channel := .sms } baseSys welcomeTemplate
    rfl rfl rfl (by decide)

end NotifService

namespace NotifService

/-- Claim C7 counterexample: the colon-joined hash input is ambiguous, so the
two DISTINCT logical inputs (user_id "a:b", template "c") and (user_id "a",
template "b:c") produce the very same content string — and therefore the same
idempotency key, with no hash collision involved. -/
theorem generateIdempotencyKey_ambiguous_collision :
    idempotencyContent "a:b" "c" [] = idempotencyContent "a" "b:c" []
    ∧ generateIdempotencyKey "a:b" "c" [] = generateIdempotencyKey "a" "b:c" []
    ∧ (("a:b", "c") ≠ (("a" : String), ("b:c" : String))) := by
  refine ⟨by decide, ?_, by decide⟩
  unfold generateIdempotencyKey
  exact congrArg sha256hex (by decide)

/-- Claim C7 (amended): the key is a function of user_id, template and the
EXACT JSON serialization of data, not of data as an unordered map — equal
serializations give equal keys, while the same key/value map written in a
different insertion order serializes differently and so feeds a different
string to the hash. -/
theorem generateIdempotencyKey_serialization_function :
    (∀ u t : String, ∀ d d' : JsonObj, jsonStringify d = jsonStringify d' →
        generateIdempotencyKey u t d = generateIdempotencyKey u t d')
    ∧ (∀ k, jsLookup abPayload k = jsLookup baPayload k)
    ∧ jsonStringify abPayload ≠ jsonStringify baPayload := by
  refine ⟨?_, ?_, by decide⟩
  · intro u t d d' h
    unfold generateIdempotencyKey idempotencyContent
    rw [h]
  · intro k
    by_cases h1 : ("a" : String) = k
    · subst h1; decide
    · by_cases h2 : ("b" : String) = k
      · subst h2; decide
      · have e1 : (("a" : String) == k) = false := beq_eq_false_iff_ne.mpr h1
        have e2 : (("b" : String) == k) = false := beq_eq_false_iff_ne.mpr h2
        simp [jsLookup, abPayload, baPayload, List.find?, e1, e2]

/-- Witness for the amended claim C7: equal serializations give equal keys at
a concrete payload. -/
theorem generateIdempotencyKey_serialization_function_witness :
    generateIdempotencyKey "u1" "welcome_email" exampleData =
      generateIdempotencyKey "u1" "welcome_email" exampleData :=
  generateIdempotencyKey_serialization_function.1 "u1" "welcome_email"
    exampleData exampleData rfl

/-- renderGo on the empty character list yields the empty list at any fuel. -/
theorem renderGo_nil (data : JsonObj) (fuel : Nat) : renderGo data fuel [] = [] := by
  cases fuel <;> rfl

/-- The greedy word scan consumes exactly a run of word characters up to a
closing brace. -/
theorem takeWord_word (w rest : List Char) (hw : ∀ c ∈ w, isWordChar c = true) :
    takeWord (w ++ '\x7d' :: rest) = (w, '\x7d' :: rest) := by
  induction w with
  | nil => simp [takeWord, show isWordChar '\x7d' = false from rfl]
  | cons c cs ih =>
    have hc := hw c (List.mem_cons_self c cs)
    simp [takeWord, hc, ih fun x hx => hw x (List.mem_cons_of_mem _ hx)]

/-- Scanning past literal text free of opening braces: every character is
kept verbatim, one fuel per character, and the scan continues on the rest. -/
theorem renderGo_append_lit (data : JsonObj) :
    ∀ (lit rest : List Char) (fuel : Nat), '\x7b' ∉ lit → lit.length ≤ fuel →
      renderGo data fuel (lit ++ rest) = lit ++ renderGo data (fuel - lit.length) rest := by
  intro lit
  induction lit with
  | nil => intro rest fuel _ _; rfl
  | cons c cs ih =>
    intro rest fuel hmem hlen
    have hcn : c ≠ '\x7b' := by rintro rfl; exact hmem (List.mem_cons_self _ _)
    have hcs : '\x7b' ∉ cs := fun h => hmem (List.mem_cons_of_mem _ h)
    cases fuel with
    | zero => simp at hlen
    | succ f =>
      have hc : (c == '\x7b') = false := beq_eq_false_iff_ne.mpr hcn
      have hlen' : cs.length ≤ f := by simp only [List.length_cons] at hlen; omega
      simp only [List.cons_append, renderGo, hc, Bool.false_eq_true, if_false,
        List.length_cons, Nat.succ_sub_succ, List.append_eq]
      rw [ih rest f hcs hlen']

/-- Scanning a placeholder with an arbitrary continuation: one step consumes
the whole placeholder, applies the replacement callback, and the scan
continues on the rest — the replace is global, not first-only. -/
theorem renderGo_placeholder_cont (data : JsonObj) (c : Char) (cs rest : List Char)
    (fuel : Nat) (hw : ∀ x ∈ c :: cs, isWordChar x = true) :
    renderGo data (fuel + 1) (placeholderLit (c :: cs) ++ rest) =
      replForKey data (c :: cs) ++ renderGo data fuel rest := by
  have htw : takeWord ((c :: cs) ++ '\x7d' :: ('\x7d' :: rest)) =
      (c :: cs, '\x7d' :: ('\x7d' :: rest)) := takeWord_word _ _ hw
  rw [List.cons_append] at htw
  have hshape : placeholderLit (c :: cs) ++ rest =
      '\x7b' :: '\x7b' :: (c :: (cs ++ ('\x7d' :: '\x7d' :: rest))) := by
    simp [placeholderLit]
  rw [hshape]
  simp [renderGo, htw]

/-- A string with no opening brace contains no placeholder and renders to
itself at any fuel. -/
theorem renderGo_no_brace (data : JsonObj) :
    ∀ (cs : List Char) (fuel : Nat), '\x7b' ∉ cs → renderGo data fuel cs = cs := by
  intro cs
  induction cs with
  | nil => intro fuel _; exact renderGo_nil data fuel
  | cons c cs' ih =>
    intro fuel hmem
    have hcn : c ≠ '\x7b' := by rintro rfl; exact hmem (List.mem_cons_self _ _)
    have hcs' : '\x7b' ∉ cs' := fun h => hmem (List.mem_cons_of_mem _ h)
    cases fuel with
    | zero => rfl
    | succ f =>
      have hc : (c == '\x7b') = false := beq_eq_false_iff_ne.mpr hcn
      simp only [renderGo, hc, Bool.false_eq_true, if_false]
      rw [ih f hcs']

/-- The length of an assembled segment template. -/
theorem segString_length (lit w : List Char) (rest : List (List Char × List Char))
    (tail : List Char) :
    (segString ((lit, w) :: rest) tail).length =
      lit.length + (w.length + 4) + (segString rest tail).length := by
  simp [segString, placeholderLit]
  omega

/-- The scan over any alternation of brace-free literals and placeholders
produces exactly the claim-prescribed output, given enough fuel. -/
theorem renderGo_segString (data : JsonObj) :
    ∀ (segs : List (List Char × List Char)) (tail : List Char) (fuel : Nat),
      (∀ p ∈ segs, '\x7b' ∉ p.1) →
      (∀ p ∈ segs, p.2 ≠ [] ∧ ∀ c ∈ p.2, isWordChar c = true) →
      '\x7b' ∉ tail → (segString segs tail).length ≤ fuel →
      renderGo data fuel (segString segs tail) = renderedSegs data segs tail := by
  intro segs
  induction segs with
  | nil =>
    intro tail fuel _ _ htail _
    exact renderGo_no_brace data tail fuel htail
  | cons p rest ih =>
    intro tail fuel hlit hw htail hfuel
    obtain ⟨lit, w⟩ := p
    obtain ⟨hwne, hwall⟩ := hw (lit, w) (List.mem_cons_self _ _)
    obtain ⟨c, cs, rfl⟩ := List.exists_cons_of_ne_nil hwne
    have hlith : '\x7b' ∉ lit := hlit (lit, c :: cs) (List.mem_cons_self _ _)
    have hLen := segString_length lit (c :: cs) rest tail
    have hlitfuel : lit.length ≤ fuel := by omega
    rw [segString, renderGo_append_lit data lit _ fuel hlith hlitfuel]
    obtain ⟨F, hF⟩ : ∃ F, fuel - lit.length = F + 1 := ⟨fuel - lit.length - 1, by
      simp only [List.length_cons] at hLen
      omega⟩
    rw [hF, renderGo_placeholder_cont data c cs _ F hwall]
    rw [ih tail F (fun q hq => hlit q (List.mem_cons_of_mem _ hq))
      (fun q hq => hw q (List.mem_cons_of_mem _ hq)) htail (by
        simp only [List.length_cons] at hLen
        omega)]
    rfl

/-- Claim C9 (amended): for EVERY template assembled from brace-free literal
text alternating with any number of placeholders, the renderer substitutes
each placeholder whose value is present, non-null and of non-empty string
form with that value, leaves each placeholder with a missing key, a null
value, or an empty-string value literally in place, keeps the literal text
verbatim, and always returns (there is no failure case). -/
theorem renderTemplate_substitutes_each_placeholder
    (segs : List (List Char × List Char)) (tail : List Char) (data : JsonObj)
    (hlit : ∀ p ∈ segs, '\x7b' ∉ p.1)
    (hw : ∀ p ∈ segs, p.2 ≠ [] ∧ ∀ c ∈ p.2, isWordChar c = true)
    (htail : '\x7b' ∉ tail) :
    renderTemplate (String.mk (segString segs tail)) data =
      String.mk (renderedSegs data segs tail) := by
  show String.mk (renderGo data ((segString segs tail).length + 1) (segString segs tail)) = _
  rw [renderGo_segString data segs tail _ hlit hw htail (by omega)]

/-- Witness for the amended claim C9 at a two-placeholder template with
surrounding text: the template Hi {{name}}, {{link}}! with name John and
link null renders to Hi John, {{link}}! — the present non-empty value is
substituted, the null one stays literally, in the same pass. -/
theorem renderTemplate_substitutes_each_placeholder_witness :
    renderTemplate (String.mk (segString
        [(['H', 'i', ' '], ['n', 'a', 'm', 'e']), ([',', ' '], ['l', 'i', 'n', 'k'])] ['!']))
      [("name", Json.str "John"), ("link", Json.null)] =
      "Hi John, \x7b\x7blink\x7d\x7d!" :=
  (renderTemplate_substitutes_each_placeholder
      [(['H', 'i', ' '], ['n', 'a', 'm', 'e']), ([',', ' '], ['l', 'i', 'n', 'k'])] ['!']
      [("name", Json.str "John"), ("link", Json.null)]
      (by decide) (by decide) (by decide)).trans (by decide)

/-- Claim C9 counterexample: the key name IS present in the payload with the
value "" (an empty string, a corresponding value), yet the placeholder is
left literally in place, because the callback's || match treats the falsy
empty string as missing. -/
theorem renderTemplate_empty_value_not_substituted :
    renderTemplate "\x7b\x7bname\x7d\x7d" [("name", Json.str "")] = "\x7b\x7bname\x7d\x7d"
    ∧ jsLookup [("name", Json.str "")] "name" = some (Json.str "")
    ∧ ("\x7b\x7bname\x7d\x7d" : String) ≠ "" := by
  exact ⟨by decide, rfl, by decide⟩

end NotifService

namespace NotifService

set_option maxRecDepth 200000

/-- Claim C8: getSuccessRate is 0 on an empty window; on a non-empty window it
is the sent/total ratio as a percentage up to the two-decimal rounding (within
1/200); on the spec's 950-sent/50-failed window it is exactly 95; and on no
logs at all it is 0. -/
theorem getSuccessRate_spec :
    (∀ since logs, (DeliveryLogModel.windowLogs since logs).length = 0 →
        DeliveryLogModel.getSuccessRate since logs = 0)
    ∧ (∀ since logs, (DeliveryLogModel.windowLogs since logs).length ≠ 0 →
        |DeliveryLogModel.getSuccessRate since logs -
          100 * (((DeliveryLogModel.windowLogs since logs).filter
              fun l => l.status == .sent).length : ℚ) /
            ((DeliveryLogModel.windowLogs since logs).length : ℚ)| ≤ 1 / 200)
    ∧ DeliveryLogModel.getSuccessRate none successWindow = 95
    ∧ DeliveryLogModel.getSuccessRate none [] = 0 := by
  refine ⟨?_, ?_, ?_, by decide⟩
  · intro since logs h
    simp [DeliveryLogModel.getSuccessRate, h]
  · intro since logs h
    have ht : ((DeliveryLogModel.windowLogs since logs).length : ℚ) ≠ 0 :=
      Nat.cast_ne_zero.mpr h
    set s : ℚ := (((DeliveryLogModel.windowLogs since logs).filter
        fun l => l.status == .sent).length : ℚ) with hs
    set t : ℚ := ((DeliveryLogModel.windowLogs since logs).length : ℚ) with hts
    have hgoal : DeliveryLogModel.getSuccessRate since logs =
        (DeliveryLogModel.jsRound (s / t * 100 * 100) : ℚ) / 100 := by
      rw [DeliveryLogModel.getSuccessRate]
      simp only [← hs, ← hts]
      rw [if_neg ht]
    rw [hgoal]
    set q : ℚ := s / t * 100 * 100 with hq
    have h1 : (DeliveryLogModel.jsRound q : ℚ) ≤ q + 1 / 2 := by
      rw [DeliveryLogModel.jsRound]
      exact_mod_cast Int.floor_le (q + 1 / 2)
    have h2 : q - 1 / 2 < (DeliveryLogModel.jsRound q : ℚ) := by
      rw [DeliveryLogModel.jsRound]
      have := Int.lt_floor_add_one (q + 1 / 2)
      push_cast at this ⊢
      linarith
    have hqr : 100 * s / t = q / 100 := by
      rw [hq]
      field_simp
      ring
    rw [hqr, div_sub_div_same, abs_div]
    have habs : |(DeliveryLogModel.jsRound q : ℚ) - q| ≤ 1 / 2 :=
      abs_le.mpr ⟨by linarith, by linarith⟩
    rw [show |(100 : ℚ)| = 100 by norm_num]
    linarith
  · have hw : DeliveryLogModel.windowLogs none successWindow = successWindow := rfl
    have hfil : (successWindow.filter fun l => l.status == .sent).length = 950 := by
      rw [successWindow, List.filter_append, List.filter_replicate, List.filter_replicate]
      norm_num [sentLog, failedLog]
      decide
    have hlen : successWindow.length = 1000 := by
      rw [successWindow]
      simp
    have hround : DeliveryLogModel.jsRound ((950 : ℚ) / 1000 * 100 * 100) = 9500 := by
      rw [DeliveryLogModel.jsRound]
      rw [Int.floor_eq_iff]
      constructor <;> norm_num
    rw [DeliveryLogModel.getSuccessRate]
    simp only [hw, hfil, hlen]
    rw [if_neg (by norm_num)]
    rw [show ((950 : ℕ) : ℚ) / ((1000 : ℕ) : ℚ) * 100 * 100 = (950 : ℚ) / 1000 * 100 * 100 by
      norm_num]
    rw [hround]
    norm_num

/-- Witness for claim C8: a window whose filter excludes the only log row
(created_at 50 < since 200) is empty, and getSuccessRate is 0 on it. -/
theorem getSuccessRate_spec_witness :
    DeliveryLogModel.getSuccessRate (some 200) [sentLog] = 0 :=
  getSuccessRate_spec.1 (some 200) [sentLog] (by decide)

end NotifService
